import Mathlib

/-!
# Verification of the sfcli interactive session core

Shallow embedding of the salesforce_cli repository's session navigation
engine and query/relationship layer (src/sfcli/interactive.py and
src/sfcli/client.py), together with proofs settling the frozen claims
about the natural-language specification.

Conventions of the embedding:
* Python dict-shaped records become association lists `List (String × Value)`;
  `dict.get` with its `None` default becomes `pyGet`, membership (`in`)
  becomes `dictContains` (these differ on keys stored with a `None` value,
  exactly as in Python).
* Python `None` is `Value.null`.  Float values are carried by their literal
  text; truthiness and order comparisons interpret the literal by its exact
  decimal value (`floatVal?`).  Python stores the nearest binary64 instead,
  but that rounding is monotone, so the interpretations agree on every
  comparison except ties created by rounding, which no claim exercises;
  non-finite floats (`inf`/`nan`) do not arise in any claim.
* Collaborator calls (the remote store client) are passed in as explicit
  `Except String _` results or result-producing functions, so that a raised
  exception in the Python source is an `.error` value here.
* `sorted(..., key=..., reverse=...)` (CPython's stable Timsort) is embedded
  as a stable insertion sort by the same boolean key order; a stable sort by
  a total preorder has a unique output, so the two agree extensionally.
-/

namespace SfCli

/-- Runtime values stored in a record field: the subset of Python values the
sfcli code manipulates (`None`, `bool`, `int`, `float`, `str`).  Float values
are represented by their literal text; no claim depends on float semantics. -/
inductive Value where
  | null
  | bool (b : Bool)
  | int (n : Int)
  | float (lit : String)
  | str (s : String)
deriving DecidableEq, Repr

/-- A record is a Python dict from field names to values, embedded as an
association list in insertion order (the literals used in proofs are
duplicate-free, matching dict semantics). -/
abbrev Record := List (String × Value)

/-- First binding of a key, mirroring Python dict lookup. -/
def dictLookup : Record → String → Option Value
  | [], _ => none
  | (k', v) :: rest, k => if k' = k then some v else dictLookup rest k

/-- Python `k in d` — key membership, regardless of the stored value. -/
def dictContains (r : Record) (k : String) : Bool :=
  (dictLookup r k).isSome

/-- Python `d.get(k, default)`. -/
def dictGet (r : Record) (k : String) (default : Value) : Value :=
  match dictLookup r k with
  | some v => v
  | none => default

/-- Python `d.get(k)` — missing keys yield `None`. -/
def pyGet (r : Record) (k : String) : Value :=
  dictGet r k Value.null

/-- Python `d[k] = v` on a record (first occurrence replaced, appended if
absent; the sfcli update path only writes keys that are already present). -/
def dictSet : Record → String → Value → Record
  | [], k, v => [(k, v)]
  | (k', w) :: rest, k, v =>
      if k' = k then (k, v) :: rest else (k', w) :: dictSet rest k v

/-- Python `str` of an optional string (`None` renders as "None"). -/
def pyStrOpt : Option String → String
  | some s => s
  | none => "None"

/-! ### Python string primitives

Embedded directly over the character list so that every definition is
kernel-evaluable.  The claims only exercise ASCII data, matching
Python's behavior on that range. -/

/-- Python whitespace for `str.strip` / `str.split`. -/
def pyIsSpace (c : Char) : Bool :=
  c = ' ' ∨ c = '\t' ∨ c = '\n' ∨ c = '\r' ∨ c = '\x0b' ∨ c = '\x0c'

/-- ASCII lowercasing of one character (Python `str.lower` on ASCII). -/
def pyCharLower (c : Char) : Char :=
  if 'A' ≤ c ∧ c ≤ 'Z' then Char.ofNat (c.toNat + 32) else c

/-- Python `s.lower()`. -/
def pyLower (s : String) : String :=
  String.mk (s.data.map pyCharLower)

/-- Python `s.strip()`. -/
def pyStrip (s : String) : String :=
  String.mk
    (((s.data.dropWhile pyIsSpace).reverse.dropWhile pyIsSpace).reverse)

/-- Prefix test on character lists. -/
def charsHavePre : List Char → List Char → Bool
  | [], _ => true
  | _ :: _, [] => false
  | p :: ps, c :: cs => p = c && charsHavePre ps cs

/-- Python `s.startswith(pre)`. -/
def pyStartsWith (s pre : String) : Bool :=
  charsHavePre pre.data s.data

/-- Python `s.endswith(suf)`. -/
def pyEndsWith (s suf : String) : Bool :=
  charsHavePre suf.data.reverse s.data.reverse

/-- Python `c in s` for a single character. -/
def pyContainsChar (s : String) (c : Char) : Bool :=
  s.data.contains c

/-- Python `s[:-1]`. -/
def pyDropLast (s : String) : String :=
  String.mk s.data.dropLast

/-- Python `≤` on strings: lexicographic by code point. -/
def charsLe : List Char → List Char → Bool
  | [], _ => true
  | _ :: _, [] => false
  | c :: cs, d :: ds => if c = d then charsLe cs ds else c.toNat < d.toNat

/-- Python `a <= b` on strings. -/
def pyStrLe (a b : String) : Bool :=
  charsLe a.data b.data

/-! ### Python numeric literals

Python `int(raw)` and `float(raw)` literal syntax (sign, digit groups with
single underscores between digits, decimal point, exponent, `inf`/`nan`),
and the exact decimal value of a finite float literal used for truthiness
and ordering. -/

/-- Python `int(raw)` digit body: digits with single underscores strictly
between digits. -/
def pyDigitsCore : List Char → Bool
  | [] => true
  | ['_'] => false
  | '_' :: '_' :: _ => false
  | '_' :: rest => pyDigitsCore rest
  | c :: rest => c.isDigit && pyDigitsCore rest

/-- A non-empty digit group acceptable to Python `int`/`float` (no leading
or trailing underscore, no doubled underscore). -/
def pyDigitGroup (cs : List Char) : Bool :=
  match cs with
  | [] => false
  | c :: _ => c.isDigit && pyDigitsCore cs

/-- Numeric value of a digit group (underscores skipped). -/
def digitsVal (cs : List Char) : Nat :=
  cs.foldl (fun acc c => if c = '_' then acc else acc * 10 + (c.toNat - 48)) 0

/-- Python `int(raw)`: strip whitespace, optional sign, decimal digit group
(`none` models the `ValueError`). -/
def pyParseIntSigned (raw : String) : Option Int :=
  let cs := (pyStrip raw).data
  match cs with
  | '+' :: rest => if pyDigitGroup rest then some (digitsVal rest) else none
  | '-' :: rest => if pyDigitGroup rest then some (-(digitsVal rest : Int)) else none
  | _ => if pyDigitGroup cs then some (digitsVal cs) else none

/-- Mantissa of a Python float literal: `d`, `d.`, `d.d` or `.d` with valid
digit groups. -/
def pyFloatMantissa (cs : List Char) : Bool :=
  match cs.splitOn '.' with
  | [a] => pyDigitGroup a
  | [a, b] =>
      if a = [] then pyDigitGroup b
      else if b = [] then pyDigitGroup a
      else pyDigitGroup a && pyDigitGroup b
  | _ => false

/-- Exponent part of a Python float literal: optional sign then digits. -/
def pyFloatExponent (cs : List Char) : Bool :=
  match cs with
  | '+' :: rest => pyDigitGroup rest
  | '-' :: rest => pyDigitGroup rest
  | _ => pyDigitGroup cs

/-- Unsigned body of a Python `float` literal (after lowercasing):
`inf`/`infinity`/`nan` or mantissa with optional exponent. -/
def pyFloatBody (cs : List Char) : Bool :=
  if cs = "inf".toList ∨ cs = "infinity".toList ∨ cs = "nan".toList then true
  else
    match cs.splitOn 'e' with
    | [m] => pyFloatMantissa m
    | [m, e] => pyFloatMantissa m && pyFloatExponent e
    | _ => false

/-- Whether Python `float(raw)` succeeds (strip, optional sign, body). -/
def pyFloatParses (raw : String) : Bool :=
  let cs := (pyLower (pyStrip raw)).data
  match cs with
  | '+' :: rest => pyFloatBody rest
  | '-' :: rest => pyFloatBody rest
  | _ => pyFloatBody cs

/-- Exact decimal value of a finite Python float literal, as a numerator
and positive power-of-ten denominator.  `none` for `inf`/`infinity`/`nan`
and for strings `float` rejects.  (Python stores the nearest binary64;
that rounding is monotone, so order comparisons between finite literals
agree with the exact decimal values except for ties created by rounding,
which no claim exercises.) -/
def floatVal? (lit : String) : Option (Int × Nat) :=
  let cs := (pyLower (pyStrip lit)).data
  let signBody : Bool × List Char :=
    match cs with
    | '+' :: rest => (false, rest)
    | '-' :: rest => (true, rest)
    | _ => (false, cs)
  let neg := signBody.1
  let body := signBody.2
  if ¬ pyFloatBody body then none
  else if body = "inf".toList ∨ body = "infinity".toList ∨
      body = "nan".toList then none
  else
    let mantExp : List Char × List Char :=
      match body.splitOn 'e' with
      | [m, e] => (m, e)
      | _ => (body, [])
    let expVal : Int :=
      match mantExp.2 with
      | [] => 0
      | '+' :: ds => (digitsVal ds : Int)
      | '-' :: ds => -(digitsVal ds : Int)
      | ds => (digitsVal ds : Int)
    let intFrac : List Char × List Char :=
      match mantExp.1.splitOn '.' with
      | [a, b] => (a, b)
      | _ => (mantExp.1, [])
    let fracLen := (intFrac.2.filter fun c => c ≠ '_').length
    let m : Int := (digitsVal (intFrac.1 ++ intFrac.2) : Int)
    let m : Int := if neg then -m else m
    if 0 ≤ expVal then
      some (m * ((10 : Int) ^ expVal.toNat), (10 : Nat) ^ fracLen)
    else
      some (m, (10 : Nat) ^ (fracLen + (-expVal).toNat))

/-- Numeric value of a bool/int/float for Python comparisons, as an exact
fraction (bools count as 0/1; non-finite floats, which no claim
exercises, default to 0). -/
def numVal : Value → Int × Nat
  | .bool b => (if b then 1 else 0, 1)
  | .int n => (n, 1)
  | .float lit => (floatVal? lit).getD (0, 1)
  | _ => (0, 1)

/-- Python `v <= w` within the numeric class (bool/int/float), by cross
multiplication of the exact fractions. -/
def numLe (v w : Value) : Bool :=
  (numVal v).1 * ((numVal w).2 : Int) ≤ (numVal w).1 * ((numVal v).2 : Int)

/-- Python truthiness for the values of the embedding (`0.0` and its
variants are falsy; `inf`/`nan` truthy). -/
def pyTruthy : Value → Bool
  | .null => false
  | .bool b => b
  | .int n => n ≠ 0
  | .float lit =>
      match floatVal? lit with
      | some nd => nd.1 ≠ 0
      | none => true
  | .str s => s ≠ ""

/-- Python `str(v)` for the values the session renders into breadcrumbs. -/
def pyStr : Value → String
  | .null => "None"
  | .bool b => if b then "True" else "False"
  | .int n => toString n
  | .float lit => lit
  | .str s => s

/-! ## Sort/Filter utility — `InteractiveSession._sort_records`
(src/sfcli/interactive.py lines 845-867)

The Python sort key is `(x.get(f) is None, x.get(f) or '')` and the sort is
CPython's stable `sorted` with the `reverse` flag.  Comparing keys of
incompatible runtime types raises `TypeError`, which the source catches and
turns into `None`; the embedding models that with the `recordsSortable`
guard.  CPython's tuple comparison short-circuits on the first (null-flag)
component, so a `TypeError` can only arise between two NON-null keys,
and among those comparability is an equivalence (the class
`{bool, int, float}` versus `{str}`): the sort succeeds exactly when the
coerced non-null keys all lie in one class — a comparison sort must
compare two classes somewhere to order them, and never needs a cross-class
comparison when only one class is present.  The arbitrary cross-class
ranking inside `valueLe` is therefore unobservable in a `some` result. -/

/-- Comparability class of a value under Python `<`: booleans, integers and
floats are mutually comparable, strings only with strings. -/
def valueRank : Value → Nat
  | .bool _ => 0
  | .int _ => 0
  | .float _ => 0
  | .str _ => 1
  | .null => 3

/-- Total boolean order on values: Python `≤` within a comparability class
(strings lexicographically, the numeric class via exact fractions), an
arbitrary rank order across classes (shielded by `recordsSortable`). -/
def valueLe (v w : Value) : Bool :=
  if valueRank v = valueRank w then
    match v, w with
    | .str a, .str b => pyStrLe a b
    | _, _ => numLe v w
  else valueRank v < valueRank w

/-- Whether Python would compare `v` and `w` without a `TypeError`:
membership in the same comparability class. -/
def comparableVals (v w : Value) : Bool :=
  valueRank v = valueRank w

/-- The Python sort key `(x.get(field_name) is None, x.get(field_name) or '')`:
a pair of the null test and the value with falsy values replaced by `''`. -/
def sortKey (fieldName : String) (r : Record) : Bool × Value :=
  let v := pyGet r fieldName
  (v = Value.null, if pyTruthy v then v else Value.str "")

/-- Python tuple `≤` on sort keys: `False < True` on the first component,
then `valueLe` on the second. -/
def keyLe (a b : Bool × Value) : Bool :=
  if a.1 = b.1 then valueLe a.2 b.2 else (!a.1 && b.1)

/-- Null-or-missing test for a field, matching the first sort key component. -/
def isNullAt (fieldName : String) (r : Record) : Bool :=
  pyGet r fieldName = Value.null

/-- The condition under which CPython's sort raises no `TypeError`: all
NON-null coerced keys pairwise comparable.  Null records never contribute:
their keys are all `(True, '')`, equal to each other, and every comparison
against a non-null key short-circuits on the differing null flag before
touching the second component. -/
def recordsSortable (fieldName : String) (records : List Record) : Bool :=
  let keys := (records.filter fun r => !isNullAt fieldName r).map
    fun r => (sortKey fieldName r).2
  keys.all fun v => keys.all fun w => comparableVals v w

/-- Insert `x` before the first element `y` with `le x y`: the insertion
step of a stable sort (an element inserted later in source order lands
after equal keys). -/
def insertSortedBy (le : α → α → Bool) (x : α) : List α → List α
  | [] => [x]
  | y :: ys => if le x y then x :: y :: ys else y :: insertSortedBy le x ys

/-- Stable insertion sort; extensionally equal to CPython's stable sort for
a total preorder `le`. -/
def sortBy (le : α → α → Bool) : List α → List α
  | [] => []
  | x :: xs => insertSortedBy le x (sortBy le xs)

/-- `sorted(records, key=..., reverse=descending)`: ascending sorts by
`keyLe` on keys; `reverse=True` is the stable sort by the flipped key
comparison (ties keep source order, exactly CPython's `reverse`). -/
def pySortedRecords (fieldName : String) (descending : Bool)
    (records : List Record) : List Record :=
  if descending then
    sortBy (fun x y => keyLe (sortKey fieldName y) (sortKey fieldName x)) records
  else
    sortBy (fun x y => keyLe (sortKey fieldName x) (sortKey fieldName y)) records

/-- `InteractiveSession._sort_records`.  `none` is the error path (field
missing from the first record, or the `except` branch around the sort);
`some` is the sorted list. -/
def sortRecords (records : List Record) (fieldName : String)
    (descending : Bool) : Option (List Record) :=
  match records with
  | [] => some []
  | r0 :: _ =>
      if dictContains r0 fieldName then
        if recordsSortable fieldName records then
          some (pySortedRecords fieldName descending records)
        else none
      else none

/-! ## Navigation session state (src/sfcli/interactive.py)

The frames are the dicts appended to `self.navigation_stack`.  Their key
sets differ by call site: `_handle_select` pushes `type='search'` dicts
with a `navigation_path` key; `_handle_cd` pushes `type='record'` dicts
with a `navigation_path` key; `_handle_related`, `_handle_parent`,
`_handle_ultimate_parent` and `_handle_children` push `type='record'`
dicts WITHOUT a `navigation_path` key (the latter three also carry a
`records` key that `_go_back` never reads); `_handle_select_related`
pushes `type='related'` dicts with a `navigation_path` key.  The optional
keys are modelled with `Option`. -/

/-- A navigation stack entry.  `navPath = none` models the absence of the
`navigation_path` dict key; `recordsExtra` is the `records` key stored by
the parent/ultimateparent/children shortcuts and ignored by `_go_back`. -/
inductive Frame where
  | search (object : Option String) (records : List Record)
      (navPath : Option (List String))
  | record (object : Option String) (rec : Option Record)
      (navPath : Option (List String)) (recordsExtra : Option (List Record))
  | related (object : Option String) (parentRec : Option Record)
      (relType : Option String) (records : List Record)
      (navPath : Option (List String))
deriving DecidableEq, Repr

/-- The mutable fields of `InteractiveSession` that the navigation state
machine owns (`__init__`, lines 44-52). -/
structure Session where
  currentObject : Option String
  currentRecords : List Record
  currentRecord : Option Record
  relatedRecords : List Record
  relatedType : Option String
  navigationStack : List Frame
  navigationPath : List String
deriving DecidableEq, Repr

/-- The state at session start: everything empty. -/
def emptySession : Session :=
  { currentObject := none, currentRecords := [], currentRecord := none,
    relatedRecords := [], relatedType := none, navigationStack := [],
    navigationPath := [] }

/-- `InteractiveSession._go_back` (lines 331-379). -/
def goBack (s : Session) : Session :=
  match s.navigationStack with
  | [] =>
      if s.currentRecords ≠ [] ∨ s.currentRecord ≠ none ∨
          s.relatedRecords ≠ [] then
        { currentObject := none, currentRecords := [], currentRecord := none,
          relatedRecords := [], relatedType := none, navigationStack := [],
          navigationPath := [] }
      else s
  | frame :: rest =>
      match frame with
      | .search obj records navPath? =>
          { s with navigationStack := rest,
                   navigationPath := navPath?.getD [],
                   currentObject := obj, currentRecords := records,
                   currentRecord := none, relatedRecords := [],
                   relatedType := none }
      | .record obj rec navPath? _extra =>
          { s with navigationStack := rest,
                   navigationPath := navPath?.getD [],
                   currentObject := obj, currentRecord := rec,
                   currentRecords := [], relatedRecords := [],
                   relatedType := none }
      | .related obj parentRec relType records navPath? =>
          { s with navigationStack := rest,
                   navigationPath := navPath?.getD [],
                   currentObject := obj, currentRecord := parentRec,
                   relatedRecords := records, relatedType := relType }

/-- `InteractiveSession._handle_search` (lines 381-448), after argument
parsing succeeded.  `res` is the outcome of
`client.search_with_stats(object_type, query, limit, fields)`: the source
assigns `self.current_object = object_type` before the call, and its
`except` branch then overwrites `current_object` with `None` and
`current_records` with `[]`, leaving every other field untouched. -/
def handleSearch (s : Session) (objectType : String)
    (res : Except String (List Record × Int)) : Session :=
  match res with
  | .ok (records, _totalCount) =>
      { s with currentObject := some objectType, currentRecords := records,
               navigationStack := [], currentRecord := none,
               relatedRecords := [], relatedType := none,
               navigationPath := [] }
  | .error _ =>
      { s with currentObject := none, currentRecords := [] }

/-- `InteractiveSession._handle_get` (lines 479-497), after argument
parsing.  `self.current_object = object_type` precedes the remote fetch
and the `except` branch only reports the error, so a failed fetch leaves
the requested object type behind. -/
def handleGet (s : Session) (objectType : String)
    (res : Except String Record) : Session :=
  match res with
  | .ok record => { s with currentObject := some objectType,
                           currentRecord := some record }
  | .error _ => { s with currentObject := some objectType }

/-- `InteractiveSession._handle_select` (lines 562-596).  `argsN` is the
result of Python `int(args)` (`none` = `ValueError`); `fetch` is
`client.get_record(self.current_object, record_id)` keyed by the record
id.  The `search` frame is pushed BEFORE the fetch, so a fetch failure
leaves the pushed frame on the stack (the exception is not caught by the
handler's `except ValueError`).  The source reads `record['Id']`; the
embedding reads it with a null default, which no claim distinguishes. -/
def handleSelect (s : Session) (argsN : Option Int)
    (fetch : String → Except String Record) : Session :=
  match argsN with
  | none => s
  | some n =>
      let index := n - 1
      if 0 ≤ index then
        match s.currentRecords.get? index.toNat with
        | none => s
        | some record =>
            let pushed :=
              { s with navigationStack :=
                  (Frame.search s.currentObject s.currentRecords
                    (some s.navigationPath)) :: s.navigationStack }
            match fetch (pyStr (pyGet record "Id")) with
            | .ok fullRecord =>
                { pushed with currentRecord := some fullRecord,
                              currentRecords := [], navigationPath := [] }
            | .error _ => pushed
      else s

/-- The plural-relationship-name → object-type table shared by
`_handle_select_related` (lines 1571-1585) and
`client.get_related_records` (lines 258-273). -/
def objectMapping (relationshipName : String) : String :=
  if relationshipName = "Contacts" then "Contact"
  else if relationshipName = "Opportunities" then "Opportunity"
  else if relationshipName = "OpportunityLineItems" then "OpportunityLineItem"
  else if relationshipName = "Cases" then "Case"
  else if relationshipName = "Tasks" then "Task"
  else if relationshipName = "Events" then "Event"
  else if relationshipName = "Leads" then "Lead"
  else if relationshipName = "Contracts" then "Contract"
  else if relationshipName = "Orders" then "Order"
  else if relationshipName = "Assets" then "Asset"
  else if relationshipName = "Invoices" then "Invoice"
  else if relationshipName = "Quotes" then "SBQQ__Quote__c"
  else if relationshipName = "Accounts" then "Account"
  else if relationshipName = "Products" then "Product2"
  else relationshipName

/-- `InteractiveSession._handle_select_related` (lines 1562-1620).  Here the
fetch happens BEFORE the `related` frame is pushed, so a fetch failure
leaves the session untouched.  `self.related_type` is `some` whenever the
related list is non-empty in reachable states; the `none` case renders as
Python `None` would. -/
def handleSelectRelated (s : Session) (argsN : Option Int)
    (fetch : String → Except String Record) : Session :=
  match argsN with
  | none => s
  | some n =>
      let index := n - 1
      if 0 ≤ index then
        match s.relatedRecords.get? index.toNat with
        | none => s
        | some record =>
            let actualObject := objectMapping (pyStrOpt s.relatedType)
            match fetch (pyStr (pyGet record "Id")) with
            | .error _ => s
            | .ok fullRecord =>
                { s with
                  navigationStack :=
                    Frame.related s.currentObject s.currentRecord
                      s.relatedType s.relatedRecords
                      (some s.navigationPath) :: s.navigationStack,
                  currentObject := some actualObject,
                  currentRecord := some fullRecord,
                  relatedRecords := [], relatedType := none,
                  navigationPath := [] }
      else s

/-- The breadcrumb seed `f"{self.current_object}:{record_name}"` with
`record_name = record.get('Name', record.get('Id', 'Record'))`
(lines 722-724). -/
def breadcrumbSeed (currentObject : Option String) (record : Record) : String :=
  pyStrOpt currentObject ++ ":" ++
    pyStr (dictGet record "Name" (dictGet record "Id" (Value.str "Record")))

/-- `InteractiveSession._handle_related` (lines 605-661), for a non-empty
relationship argument.  `fetch` is `client.get_related_records` keyed by
the relationship name.  The pushed `record` frame has NO `navigation_path`
key and the handler never touches `navigation_path`. -/
def handleRelated (s : Session) (relationshipName : String)
    (fetch : String → Except String (List Record)) : Session :=
  match s.currentRecord with
  | none => s
  | some record =>
      if relationshipName = "" then s
      else
        match fetch relationshipName with
        | .error _ => s
        | .ok recs =>
            { s with
              navigationStack :=
                Frame.record s.currentObject (some record) none none ::
                  s.navigationStack,
              relatedRecords := recs,
              relatedType := some relationshipName }

/-- `InteractiveSession._handle_cd` (lines 663-730).  A `__c`-suffixed name
first retries with the `__r` spelling; the pushed `record` frame DOES
carry the `navigation_path` key, and the breadcrumb is seeded or extended. -/
def handleCd (s : Session) (relationshipName : String)
    (fetch : String → Except String (List Record)) : Session :=
  match s.currentRecord with
  | none => s
  | some record =>
      let attempt : Option (List Record × String) :=
        if pyEndsWith relationshipName "__c" then
          let rName := pyDropLast relationshipName ++ "r"
          match fetch rName with
          | .ok recs => some (recs, rName)
          | .error _ =>
              match fetch relationshipName with
              | .ok recs => some (recs, relationshipName)
              | .error _ => none
        else
          match fetch relationshipName with
          | .ok recs => some (recs, relationshipName)
          | .error _ => none
      match attempt with
      | none => s
      | some (recs, rName) =>
          { s with
            navigationStack :=
              Frame.record s.currentObject (some record)
                (some s.navigationPath) none :: s.navigationStack,
            relatedRecords := recs,
            relatedType := some rName,
            navigationPath :=
              if s.navigationPath = [] then
                [breadcrumbSeed s.currentObject record, rName]
              else s.navigationPath ++ [rName] }

/-- `InteractiveSession._handle_parent` (lines 1057-1119).  `res` collapses
the parent fetch (by id or by field-limited query; an empty query result
is the `.error` case, as the handler returns without mutating).  The
pushed frame carries the extra `records` key and no `navigation_path`. -/
def handleParent (s : Session) (res : Except String Record) : Session :=
  match s.currentRecord with
  | none => s
  | some record =>
      if s.currentObject ≠ some "Account" then s
      else if ¬ pyTruthy (pyGet record "ParentId") then s
      else
        match res with
        | .error _ => s
        | .ok parentRecord =>
            { s with
              navigationStack :=
                Frame.record s.currentObject (some record) none
                  (some s.currentRecords) :: s.navigationStack,
              currentRecord := some parentRecord,
              relatedRecords := [], relatedType := none }

/-- `InteractiveSession._handle_ultimate_parent` (lines 1121-1183): same
discipline as `_handle_parent` with the `Ultimate_Parent__c` field. -/
def handleUltimateParent (s : Session) (res : Except String Record) : Session :=
  match s.currentRecord with
  | none => s
  | some record =>
      if s.currentObject ≠ some "Account" then s
      else if ¬ pyTruthy (pyGet record "Ultimate_Parent__c") then s
      else
        match res with
        | .error _ => s
        | .ok ultimateRecord =>
            { s with
              navigationStack :=
                Frame.record s.currentObject (some record) none
                  (some s.currentRecords) :: s.navigationStack,
              currentRecord := some ultimateRecord,
              relatedRecords := [], relatedType := none }

/-- `InteractiveSession._handle_children` (lines 1185-1253).  `res` is the
pair of the count query and the records query (either raising is the
`.error` case).  A zero count returns before any mutation; otherwise the
children populate the related list and the current record stays. -/
def handleChildren (s : Session) (res : Except String (Int × List Record)) :
    Session :=
  match s.currentRecord with
  | none => s
  | some record =>
      if s.currentObject ≠ some "Account" then s
      else if ¬ pyTruthy (pyGet record "Id") then s
      else
        match res with
        | .error _ => s
        | .ok (totalCount, children) =>
            if totalCount = 0 then s
            else
              { s with
                navigationStack :=
                  Frame.record s.currentObject (some record) none
                    (some s.currentRecords) :: s.navigationStack,
                relatedRecords := children,
                relatedType := some "Account" }

/-! ## Query constructor — `SalesforceClient.search` (src/sfcli/client.py
lines 73-162)

The query strings are reproduced character-for-character, including the
f-string indentation of the multi-line SOQL literals.  The `except` branch
of `search` interpolates the raw `fields` argument (`{fields}`) into its
SELECT clause — NOT the `soql_fields` string it computes just above — so
its query text contains Python's `str(None)` or `str(list)` rendering. -/

/-- The SOSL search-term quoting rule (client.py lines 100-105). -/
def searchTerm (query : String) : String :=
  if pyStartsWith query "\"" ∧ pyEndsWith query "\"" then query
  else if pyContainsChar query ' ' then "\"" ++ query ++ "\"" else query

/-- Python `', '.join(fields)`. -/
def joinFields (fields : List String) : String :=
  String.intercalate ", " fields

/-- The SOSL RETURNING field list (client.py lines 91-97). -/
def soslFieldsStr (objectType : String) (fields : Option (List String)) :
    String :=
  match fields with
  | some fs => joinFields fs
  | none =>
      if objectType = "Account" then
        "Id, Name, ParentId, Ultimate_Parent__c, ShippingStreet, ShippingCity, ShippingState, ShippingPostalCode"
      else "Id, Name"

/-- The SOSL query string (client.py line 107). -/
def soslQuery (objectType query : String) (limit : Int)
    (fields : Option (List String)) : String :=
  "FIND \x7b" ++ searchTerm query ++ "\x7d IN ALL FIELDS RETURNING " ++
    objectType ++ "(" ++ soslFieldsStr objectType fields ++
    " ORDER BY Name LIMIT " ++ toString limit ++ ")"

/-- The SOQL field list `soql_fields` computed on both fallback paths
(client.py lines 122-127 and 146-151). -/
def soqlFieldsFor (objectType nameField : String)
    (fields : Option (List String)) : String :=
  match fields with
  | some fs => joinFields fs
  | none =>
      if objectType = "Account" then
        "Id, " ++ nameField ++
          ", ParentId, Ultimate_Parent__c, ShippingStreet, ShippingCity, ShippingState, ShippingPostalCode"
      else "Id, " ++ nameField

/-- The zero-result fallback SOQL (client.py lines 129-135): this reachable
path interpolates `soql_fields` correctly. -/
def fallbackSoql (objectType nameField query : String) (limit : Int)
    (fields : Option (List String)) : String :=
  "\n                SELECT " ++ soqlFieldsFor objectType nameField fields ++
  "\n                FROM " ++ objectType ++
  "\n                WHERE " ++ nameField ++ " LIKE \x27%" ++ query ++ "%\x27" ++
  "\n                ORDER BY " ++ nameField ++
  "\n                LIMIT " ++ toString limit ++
  "\n            "

/-- Python `str(fields)` for the `Optional[List[str]]` argument:
`None` renders as "None", a list as `['A', 'B']`. -/
def pyReprFieldsArg : Option (List String) → String
  | none => "None"
  | some fs =>
      "[" ++ String.intercalate ", " (fs.map fun f => "\x27" ++ f ++ "\x27") ++ "]"

/-- The `except`-branch fallback SOQL (client.py lines 153-159).  Its
SELECT clause is `f"SELECT {fields}"` — the raw argument, not the
`soql_fields` string computed at lines 146-151. -/
def exceptBranchSoql (objectType nameField query : String) (limit : Int)
    (fields : Option (List String)) : String :=
  "\n                SELECT " ++ pyReprFieldsArg fields ++
  "\n                FROM " ++ objectType ++
  "\n                WHERE " ++ nameField ++ " LIKE \x27%" ++ query ++ "%\x27" ++
  "\n                ORDER BY " ++ nameField ++
  "\n                LIMIT " ++ toString limit ++
  "\n            "

/-- Result shape of `self.sf.search` (the `searchRecords` group). -/
structure SoslResult where
  searchRecords : List Record
deriving DecidableEq, Repr

/-- Result shape of `self.sf.query`. -/
structure SoqlResult where
  records : List Record
deriving DecidableEq, Repr

/-- The body of the `try` block of `SalesforceClient.search` (lines 89-140):
run SOSL, return its rows if non-empty, otherwise run the zero-result
fallback SOQL.  An exception anywhere inside is the `.error` case.
`nameField` stands for `self._get_name_field(object_type)` (a pure
function of memoized metadata). -/
def searchTryBody (objectType query : String) (limit : Int)
    (fields : Option (List String)) (nameField : String)
    (soslRun : String → Except String SoslResult)
    (soqlRun : String → Except String SoqlResult) :
    Except String (List Record) :=
  match soslRun (soslQuery objectType query limit fields) with
  | .error e => .error e
  | .ok result =>
      if result.searchRecords ≠ [] then .ok result.searchRecords
      else
        match soqlRun (fallbackSoql objectType nameField query limit fields) with
        | .error e => .error e
        | .ok r => .ok r.records

/-- `SalesforceClient.search` (lines 73-162): the `try` body with the
`except Exception` branch that silently reruns the (malformed)
`except`-branch SOQL.  A failure of that final query propagates. -/
def clientSearch (objectType query : String) (limit : Int)
    (fields : Option (List String)) (nameField : String)
    (soslRun : String → Except String SoslResult)
    (soqlRun : String → Except String SoqlResult) :
    Except String (List Record) :=
  match searchTryBody objectType query limit fields nameField soslRun soqlRun with
  | .ok v => .ok v
  | .error _ =>
      match soqlRun (exceptBranchSoql objectType nameField query limit fields) with
      | .error e => .error e
      | .ok r => .ok r.records

/-! ## Mutation handler — `InteractiveSession._handle_update`
(src/sfcli/interactive.py lines 976-1055)

The numeric-literal parsers it relies on (`pyParseIntSigned`,
`pyFloatParses`) are defined with the Python string primitives above. -/

/-- The boolean token set of the update coercion (line 1013). -/
def boolTokens : List String := ["true", "1", "yes", "t", "y"]

/-- The type-preserving coercion of `_handle_update` (lines 1010-1021):
typed by the CURRENT value; int/float parse failures fall back to the raw
string (the `except ValueError` branch), so the function is total.  A
successfully parsed float is carried by its literal text. -/
def coerceValue (oldValue : Value) (newValue : String) : Value :=
  match oldValue with
  | .bool _ => .bool (boolTokens.contains (pyLower newValue))
  | .int _ =>
      match pyParseIntSigned newValue with
      | some n => .int n
      | none => .str newValue
  | .float _ =>
      if pyFloatParses newValue then .float newValue else .str newValue
  | _ => .str newValue

/-- Python `args.split(maxsplit=1)`: leading whitespace dropped, first
whitespace-free token, then the remainder after the separating whitespace
run (trailing whitespace of the remainder kept). -/
def pySplitFirst (s : String) : List String :=
  let cs := s.data.dropWhile pyIsSpace
  match cs with
  | [] => []
  | _ =>
      let tok := cs.takeWhile fun c => !pyIsSpace c
      let rest := (cs.dropWhile fun c => !pyIsSpace c).dropWhile pyIsSpace
      if rest = [] then [String.mk tok] else [String.mk tok, String.mk rest]

/-- The case-insensitive field resolution of `_handle_update`
(lines 995-999): first record key whose lowercasing matches. -/
def findKeyCI (r : Record) (fieldName : String) : Option String :=
  match r.find? (fun kv => pyLower kv.1 = pyLower fieldName) with
  | some kv => some kv.1
  | none => none

/-- `InteractiveSession._handle_update` (lines 976-1055), returning the
post-command session and the write request issued to
`client.update_record` (`none` = no remote write attempted).
`confirmation` is the raw prompt input; `writeResult` is the remote
write's outcome, consulted only when the confirmation passes.  The
confirmation gate is `confirmation.strip().lower() in ['yes', 'y']`; on
success (`.ok true`) the local record snapshot is updated in place. -/
def handleUpdate (s : Session) (args : String) (confirmation : String)
    (writeResult : Except String Bool) :
    Session × Option (String × Value) :=
  match s.currentRecord with
  | none => (s, none)
  | some record =>
      if args = "" then (s, none)
      else
        match pySplitFirst args with
        | [fieldName, newValue] =>
            match findKeyCI record fieldName with
            | none => (s, none)
            | some actualField =>
                let oldValue := pyGet record actualField
                let newTyped := coerceValue oldValue newValue
                let conf := pyLower (pyStrip confirmation)
                if conf = "yes" ∨ conf = "y" then
                  match writeResult with
                  | .ok true =>
                      let updated := dictSet record actualField newTyped
                      ({ s with currentRecord := some updated },
                       some (actualField, newTyped))
                  | .ok false => (s, some (actualField, newTyped))
                  | .error _ => (s, some (actualField, newTyped))
                else (s, none)
        | _ => (s, none)

/-! ## Relationship resolver — `SalesforceClient.get_related_records` and
`SalesforceClient._get_relationship_field` (src/sfcli/client.py
lines 231-292 and 613-673) -/

/-- One entry of `get_child_relationships(object_type)` (client.py
lines 323-347): the declared child-relationship metadata. -/
structure ChildRel where
  name : String
  object : String
  field : String
deriving DecidableEq, Repr

/-- Field metadata as consumed by `_get_relationship_field`. -/
structure FieldMeta where
  name : String
  type : String
  referenceTo : List String
deriving DecidableEq, Repr

/-- The `common_patterns` parent-type → joining-field table
(client.py lines 626-633). -/
def commonPatterns (parentObject : String) : Option String :=
  if parentObject = "Account" then some "AccountId"
  else if parentObject = "Opportunity" then some "OpportunityId"
  else if parentObject = "Contact" then some "ContactId"
  else if parentObject = "Case" then some "CaseId"
  else if parentObject = "Lead" then some "LeadId"
  else if parentObject = "Campaign" then some "CampaignId"
  else none

/-- `SalesforceClient._get_relationship_field` (lines 613-673): convention
table validated against the child's fields, then the reference-field scan
(first reference-typed field whose targets include the parent; the
WhoId/WhatId special case at lines 658-661 repeats the same test and is
unreachable), then the `{parent_object}Id` guess, else `none`.  `describe`
stands for the memoized `describe_object`; a metadata failure is swallowed
by the source's bare `except` clauses. -/
def getRelationshipField (parentObject childObject : String)
    (describe : String → Except String (List FieldMeta)) : Option String :=
  let step1 : Option String :=
    match commonPatterns parentObject with
    | none => none
    | some pat =>
        match describe childObject with
        | .error _ => none
        | .ok fieldsMeta =>
            if fieldsMeta.any (fun f => f.name = pat) then some pat else none
  match step1 with
  | some f => some f
  | none =>
      match describe childObject with
      | .error _ => none
      | .ok fieldsMeta =>
          match fieldsMeta.find?
              (fun f => f.type = "reference" && f.referenceTo.contains parentObject) with
          | some f => some f.name
          | none =>
              if fieldsMeta.any (fun f => f.name = parentObject ++ "Id") then
                some (parentObject ++ "Id")
              else none

/-- The resolution core of `SalesforceClient.get_related_records`
(lines 245-278): scan the declared child relationships for an exact name
match (first wins); only when none matches (or the matched entry has a
falsy object, which real metadata never has) fall back to the plural-name
table and the heuristic `_get_relationship_field`; raise when no joining
field was determined.  Returns the resolved (child object type, joining
field). -/
def resolveRelated (objectType : String) (childRels : List ChildRel)
    (relationshipName : String) (heuristic : String → Option String) :
    Except String (String × String) :=
  let declared := childRels.find? fun rel => rel.name = relationshipName
  let resolved : String × Option String :=
    match declared with
    | some rel =>
        if rel.object = "" then
          let actualObject := objectMapping relationshipName
          (actualObject, heuristic actualObject)
        else (rel.object, some rel.field)
    | none =>
        let actualObject := objectMapping relationshipName
        (actualObject, heuristic actualObject)
  match resolved.2 with
  | some f =>
      if f = "" then
        .error ("Could not determine relationship field for " ++
          relationshipName ++ " to " ++ objectType)
      else .ok (resolved.1, f)
  | none =>
      .error ("Could not determine relationship field for " ++
        relationshipName ++ " to " ++ objectType)

/-- `get_related_records` with the concrete heuristic of the source wired
in: the declared-metadata scan backed by `_get_relationship_field`. -/
def getRelatedRecordsResolve (objectType : String) (childRels : List ChildRel)
    (relationshipName : String)
    (describe : String → Except String (List FieldMeta)) :
    Except String (String × String) :=
  resolveRelated objectType childRels relationshipName
    (fun child => getRelationshipField objectType child describe)

/-! ## Concrete instances used by counterexamples and witnesses -/

/-- A minimal Account search hit. -/
def accRec : Record := [("Id", Value.str "001A"), ("Name", Value.str "Acme")]

/-- A related Contact row. -/
def conRec : Record := [("Id", Value.str "003C"), ("Name", Value.str "Carol")]

/-- A related Opportunity row. -/
def oppRec : Record := [("Id", Value.str "006O"), ("Name", Value.str "Deal")]

/-- Session after `search Account Acme` returning one hit. -/
def sAfterSearch : Session :=
  handleSearch emptySession "Account" (Except.ok ([accRec], 1))

/-- Session after selecting that hit. -/
def sAfterSelect : Session :=
  handleSelect sAfterSearch (some 1) (fun _ => Except.ok accRec)

/-- Session after `cd Contacts` from the selected record: a related-list
view with a two-segment breadcrumb. -/
def sAfterCd : Session :=
  handleCd sAfterSelect "Contacts" (fun _ => Except.ok [conRec])

/-- A record-view session holding a record with an editable Phone field. -/
def updSession : Session :=
  { currentObject := some "Account", currentRecords := [],
    currentRecord := some [("Id", Value.str "001"), ("Phone", Value.str "111")],
    relatedRecords := [], relatedType := none, navigationStack := [],
    navigationPath := [] }

/-- A results-view session with exactly one search hit. -/
def selSession : Session :=
  { currentObject := some "Account", currentRecords := [accRec],
    currentRecord := none, relatedRecords := [], relatedType := none,
    navigationStack := [], navigationPath := [] }

/-- An Account record carrying parent and ultimate-parent links. -/
def accChild : Record :=
  [("Id", Value.str "001A"), ("Name", Value.str "Acme"),
   ("ParentId", Value.str "001P"), ("Ultimate_Parent__c", Value.str "001U")]

/-- The parent Account record. -/
def accParent : Record := [("Id", Value.str "001P"), ("Name", Value.str "Mega")]

/-- A plain record-view session on `accChild` (empty related list, empty
result list, empty breadcrumb). -/
def pSession : Session :=
  { currentObject := some "Account", currentRecords := [],
    currentRecord := some accChild, relatedRecords := [], relatedType := none,
    navigationStack := [], navigationPath := [] }

/-- A related-list session (parent record plus related rows and breadcrumb). -/
def relSession : Session :=
  { currentObject := some "Account", currentRecords := [],
    currentRecord := some accChild, relatedRecords := [conRec],
    relatedType := some "Contacts", navigationStack := [],
    navigationPath := ["Account:Acme", "Contacts"] }

/-- The three-record list of the specification's sort example. -/
def sortExample : List Record :=
  [[("f", Value.null)], [("f", Value.str "b")], [("f", Value.str "a")]]

/-- A declared child relationship whose joining field deliberately differs
from every convention the heuristics would guess. -/
def declaredContactsRel : ChildRel :=
  { name := "Contacts", object := "Contact", field := "Custom_Link__c" }

/-! # Theorems

General lemmas about the stable sort, then one theorem (plus witness or
counterexample) per claim. -/

theorem charsLe_refl (l : List Char) : charsLe l l = true := by
  induction l with
  | nil => rfl
  | cons c cs ih => simp [charsLe, ih]

theorem pyStrLe_refl (s : String) : pyStrLe s s = true :=
  charsLe_refl s.data

theorem numLe_refl (v : Value) : numLe v v = true := by
  simp [numLe]

theorem valueLe_refl (v : Value) : valueLe v v = true := by
  cases v <;> simp [valueLe, numLe_refl, pyStrLe_refl]

theorem keyLe_refl (k : Bool × Value) : keyLe k k = true := by
  simp [keyLe, valueLe_refl]

theorem sortKey_fst (f : String) (r : Record) :
    (sortKey f r).1 = isNullAt f r := by
  simp [sortKey, isNullAt]

theorem sortKey_of_null (f : String) (r : Record)
    (h : isNullAt f r = true) : sortKey f r = (true, Value.str "") := by
  simp only [isNullAt, decide_eq_true_eq] at h
  simp [sortKey, h, pyTruthy]

/-- Any sort key is `keyLe`-below the null key `(true, '')`. -/
theorem keyLe_nullTop (f : String) (r : Record) :
    keyLe (sortKey f r) (true, Value.str "") = true := by
  by_cases h : isNullAt f r = true
  · rw [sortKey_of_null f r h]; exact keyLe_refl _
  · have h1 : (sortKey f r).1 = false := by
      rw [sortKey_fst]; exact Bool.not_eq_true _ |>.mp h
    simp [keyLe, h1]

/-- The null key is never `keyLe`-below a non-null key. -/
theorem keyLe_null_false (f : String) (r : Record)
    (h : isNullAt f r = false) :
    keyLe (true, Value.str "") (sortKey f r) = false := by
  have h1 : (sortKey f r).1 = false := by rw [sortKey_fst, h]
  simp [keyLe, h1]

theorem mem_insertSortedBy (le : α → α → Bool) (x y : α) (l : List α) :
    y ∈ insertSortedBy le x l ↔ y = x ∨ y ∈ l := by
  induction l with
  | nil => simp [insertSortedBy]
  | cons z zs ih =>
      simp only [insertSortedBy]
      by_cases h : le x z = true
      · simp [h]
      · rw [if_neg h]
        simp only [List.mem_cons, ih]
        tauto

theorem mem_sortBy (le : α → α → Bool) (y : α) (l : List α) :
    y ∈ sortBy le l ↔ y ∈ l := by
  induction l with
  | nil => simp [sortBy]
  | cons z zs ih => simp [sortBy, mem_insertSortedBy, ih]

theorem insertSortedBy_all_le (le : α → α → Bool) (x : α) (l : List α)
    (h : ∀ y ∈ l, le x y = true) : insertSortedBy le x l = x :: l := by
  cases l with
  | nil => rfl
  | cons z zs => simp [insertSortedBy, h z (by simp)]

theorem insertSortedBy_skip (le : α → α → Bool) (x : α) (N S : List α)
    (h : ∀ y ∈ N, le x y = false) :
    insertSortedBy le x (N ++ S) = N ++ insertSortedBy le x S := by
  induction N with
  | nil => rfl
  | cons z zs ih =>
      have hz : le x z = false := h z (by simp)
      simp only [List.cons_append, insertSortedBy, hz]
      simp only [Bool.false_eq_true, if_false, List.cons.injEq, true_and]
      exact ih fun y hy => h y (by simp [hy])

theorem insertSortedBy_append_right (le : α → α → Bool) (x : α)
    (S N : List α) (h : ∀ y ∈ N, le x y = true) :
    insertSortedBy le x (S ++ N) = insertSortedBy le x S ++ N := by
  induction S with
  | nil => simp [insertSortedBy_all_le le x N h, insertSortedBy]
  | cons z zs ih =>
      simp only [List.cons_append, insertSortedBy]
      by_cases hz : le x z = true
      · simp [hz]
      · rw [if_neg hz, if_neg hz]
        simp only [List.append_eq, ih]
        rfl

/-- Filtering away the inserted element leaves the filter unchanged. -/
theorem filter_insertSortedBy_neg (le : α → α → Bool) (p : α → Bool)
    (x : α) (l : List α) (hx : p x = false) :
    (insertSortedBy le x l).filter p = l.filter p := by
  induction l with
  | nil => simp [insertSortedBy, hx]
  | cons z zs ih =>
      simp only [insertSortedBy]
      by_cases h : le x z = true
      · simp [h, hx, List.filter_cons]
      · rw [if_neg h]
        by_cases hz : p z = true
        · simp [List.filter_cons, hz, ih]
        · simp only [Bool.not_eq_true] at hz
          simp [List.filter_cons, hz, ih]

/-- An element below every member of its own filter class lands in front of
that class: the insertion step of stability. -/
theorem filter_insertSortedBy_pos (le : α → α → Bool) (p : α → Bool)
    (x : α) (l : List α) (hx : p x = true)
    (hcls : ∀ y, p y = true → le x y = true) :
    (insertSortedBy le x l).filter p = x :: l.filter p := by
  induction l with
  | nil => simp [insertSortedBy, hx]
  | cons z zs ih =>
      simp only [insertSortedBy]
      by_cases h : le x z = true
      · simp [h, List.filter_cons, hx]
      · have hz : p z = false := by
          by_contra hc
          simp only [Bool.not_eq_false] at hc
          exact h (hcls z hc)
        rw [if_neg h]
        simp [List.filter_cons, hz, ih]

/-- Stability of the insertion sort: each `le`-equivalence class (read off
by a predicate `p` on which `le` is reflexively true) keeps its source
order. -/
theorem filter_sortBy_class (le : α → α → Bool) (p : α → Bool)
    (l : List α) (hcls : ∀ x y, p x = true → p y = true → le x y = true) :
    (sortBy le l).filter p = l.filter p := by
  induction l with
  | nil => rfl
  | cons x xs ih =>
      by_cases hx : p x = true
      · rw [sortBy, filter_insertSortedBy_pos le p x _ hx
          (fun y hy => hcls x y hx hy), ih]
        simp [List.filter_cons, hx]
      · simp only [Bool.not_eq_true] at hx
        rw [sortBy, filter_insertSortedBy_neg le p x _ hx, ih]
        simp [List.filter_cons, hx]

/-- Descending sort splits as: null records in source order, then the
sorted non-null records. -/
theorem sortBy_desc_split (f : String) (rs : List Record) :
    sortBy (fun x y => keyLe (sortKey f y) (sortKey f x)) rs =
      rs.filter (fun r => isNullAt f r) ++
        sortBy (fun x y => keyLe (sortKey f y) (sortKey f x))
          (rs.filter fun r => !isNullAt f r) := by
  induction rs with
  | nil => rfl
  | cons x xs ih =>
      by_cases hx : isNullAt f x = true
      · rw [sortBy, ih, insertSortedBy_all_le _ x _
          (fun y _ => by rw [sortKey_of_null f x hx]; exact keyLe_nullTop f y)]
        simp [List.filter_cons, hx]
      · simp only [Bool.not_eq_true] at hx
        rw [sortBy, ih, insertSortedBy_skip _ x _ _ (fun y hy => ?_)]
        · simp [List.filter_cons, hx, sortBy]
        · have hy' : isNullAt f y = true := by
            have := List.of_mem_filter hy
            simpa using this
          rw [sortKey_of_null f y hy']
          exact keyLe_null_false f x hx

/-- Ascending sort splits as: the sorted non-null records, then the null
records in source order. -/
theorem sortBy_asc_split (f : String) (rs : List Record) :
    sortBy (fun x y => keyLe (sortKey f x) (sortKey f y)) rs =
      sortBy (fun x y => keyLe (sortKey f x) (sortKey f y))
          (rs.filter fun r => !isNullAt f r) ++
        rs.filter (fun r => isNullAt f r) := by
  induction rs with
  | nil => rfl
  | cons x xs ih =>
      by_cases hx : isNullAt f x = true
      · rw [sortBy, ih, insertSortedBy_skip _ x _ _ (fun y hy => ?_),
          insertSortedBy_all_le _ x _ (fun y hy => ?_)]
        · simp [List.filter_cons, hx]
        · have hy' : isNullAt f y = true := List.of_mem_filter hy
          rw [sortKey_of_null f x hx, sortKey_of_null f y hy']
          exact keyLe_refl _
        · have hy' : isNullAt f y = false := by
            have := List.of_mem_filter ((mem_sortBy _ y _).mp hy)
            simpa using this
          rw [sortKey_of_null f x hx]
          exact keyLe_null_false f y hy'
      · simp only [Bool.not_eq_true] at hx
        rw [sortBy, ih, insertSortedBy_append_right _ x _ _ (fun y hy => ?_)]
        · simp [List.filter_cons, hx, sortBy]
        · have hy' : isNullAt f y = true := List.of_mem_filter hy
          rw [sortKey_of_null f y hy']
          exact keyLe_nullTop f x

/-- A successful `_sort_records` call returns exactly the stable sort of its
input (the empty and non-empty branches both reduce to `pySortedRecords`). -/
theorem sortRecords_eq_sorted (rs : List Record) (f : String) (d : Bool)
    (out : List Record) (h : sortRecords rs f d = some out) :
    out = pySortedRecords f d rs := by
  cases rs with
  | nil =>
      simp only [sortRecords, Option.some.injEq] at h
      subst h
      cases d <;> rfl
  | cons r0 rest =>
      simp only [sortRecords] at h
      split_ifs at h with h1 h2
      exact (Option.some.injEq _ _ ▸ h).symm

/-- All filters of the non-null part of a sorted output. -/
theorem filter_nonnull_sortBy (f : String) (le : Record → Record → Bool)
    (rs : List Record) :
    (sortBy le (rs.filter fun r => !isNullAt f r)).filter
        (fun r => !isNullAt f r) =
      sortBy le (rs.filter fun r => !isNullAt f r) := by
  apply List.filter_eq_self.mpr
  intro a ha
  exact List.of_mem_filter (p := fun r => !isNullAt f r)
    ((mem_sortBy le a _).mp ha)

/-- The null part of the input contains no non-null record. -/
theorem filter_nonnull_nulls (f : String) (rs : List Record) :
    (rs.filter fun r => isNullAt f r).filter (fun r => !isNullAt f r) = [] := by
  apply List.filter_eq_nil_iff.mpr
  intro a ha
  simp [List.of_mem_filter ha]

/-- C2, counterexample.  The claim asserts that records with a null value
sort before every non-null record in the ascending case as well, so
sorting `[{f: None}, {f: "b"}, {f: "a"}]` ascending would have to start
with the null record; `_sort_records` instead sorts it last (the key
places `True` — null — above `False`, and ascending order is not
reversed). -/
theorem sortAscendingPutsNullsLast :
    sortRecords sortExample "f" false =
      some [[("f", Value.str "a")], [("f", Value.str "b")], [("f", Value.null)]] ∧
    sortRecords sortExample "f" false ≠
      some [[("f", Value.null)], [("f", Value.str "a")], [("f", Value.str "b")]] := by
  constructor
  · decide
  · decide

/-- C2, amended.  `_sort_records` is a stable sort; records whose value for
the field is null or missing sort AFTER every non-null record in the
ascending case and BEFORE every non-null record in the descending case
(the direction flag reverses the entire key order, null placement
included); the null group always appears in its original relative order;
sorting `[{f: None}, {f: "b"}, {f: "a"}]` by `f` descending yields
`[{f: None}, {f: "b"}, {f: "a"}]`, ascending yields
`[{f: "a"}, {f: "b"}, {f: None}]`.  The null placement also covers lists
mixing nulls with numeric values — CPython's tuple comparison
short-circuits on the null flag, so such lists sort without error —
shown concretely for `[{f: None}, {f: 5}, {f: 2}]` and for a
float/integer mix. -/
theorem sortStableNullPlacement :
    (sortRecords sortExample "f" true =
      some [[("f", Value.null)], [("f", Value.str "b")], [("f", Value.str "a")]]) ∧
    (sortRecords sortExample "f" false =
      some [[("f", Value.str "a")], [("f", Value.str "b")], [("f", Value.null)]]) ∧
    (sortRecords [[("f", Value.null)], [("f", Value.int 5)], [("f", Value.int 2)]]
        "f" false =
      some [[("f", Value.int 2)], [("f", Value.int 5)], [("f", Value.null)]]) ∧
    (sortRecords
        [[("f", Value.null)], [("f", Value.float "2.5")], [("f", Value.int 2)]]
        "f" false =
      some [[("f", Value.int 2)], [("f", Value.float "2.5")], [("f", Value.null)]]) ∧
    (∀ (rs : List Record) (f : String) (out : List Record),
      sortRecords rs f true = some out →
        out = rs.filter (fun r => isNullAt f r) ++
          out.filter (fun r => !isNullAt f r)) ∧
    (∀ (rs : List Record) (f : String) (out : List Record),
      sortRecords rs f false = some out →
        out = out.filter (fun r => !isNullAt f r) ++
          rs.filter (fun r => isNullAt f r)) ∧
    (∀ (rs : List Record) (f : String) (d : Bool) (out : List Record)
        (k : Bool × Value), sortRecords rs f d = some out →
        out.filter (fun r => decide (sortKey f r = k)) =
          rs.filter (fun r => decide (sortKey f r = k))) := by
  refine ⟨by decide, by decide, by decide, by decide, ?_, ?_, ?_⟩
  · intro rs f out h
    rw [sortRecords_eq_sorted rs f true out h]
    simp only [pySortedRecords, if_true]
    rw [sortBy_desc_split f rs, List.filter_append, filter_nonnull_nulls,
      filter_nonnull_sortBy, List.nil_append]
  · intro rs f out h
    rw [sortRecords_eq_sorted rs f false out h]
    simp only [pySortedRecords, Bool.false_eq_true, if_false]
    rw [sortBy_asc_split f rs, List.filter_append, filter_nonnull_nulls,
      filter_nonnull_sortBy, List.append_nil]
  · intro rs f d out k h
    rw [sortRecords_eq_sorted rs f d out h]
    cases d
    · simp only [pySortedRecords, Bool.false_eq_true, if_false]
      apply filter_sortBy_class
      intro x y hx hy
      rw [decide_eq_true_eq] at hx hy
      rw [hx, hy]
      exact keyLe_refl k
    · simp only [pySortedRecords, if_true]
      apply filter_sortBy_class
      intro x y hx hy
      rw [decide_eq_true_eq] at hx hy
      rw [hx, hy]
      exact keyLe_refl k

/-- C2 witness: the general conjuncts of `sortStableNullPlacement`
instantiated at the specification's three-record example. -/
theorem sortStableNullPlacementWitness :
    ([[("f", Value.null)], [("f", Value.str "b")], [("f", Value.str "a")]] :
        List Record) =
      sortExample.filter (fun r => isNullAt "f" r) ++
        ([[("f", Value.null)], [("f", Value.str "b")], [("f", Value.str "a")]] :
          List Record).filter (fun r => !isNullAt "f" r) :=
  sortStableNullPlacement.2.2.2.2.1 sortExample "f" _ (by decide)

/-- C10.  Sorting the empty record list never reports a field-not-found
error: the field-existence check is tied to the first record and is
skipped when there is none, so `_sort_records` returns the empty list for
every field name and direction. -/
theorem sortEmptyList (f : String) (d : Bool) :
    sortRecords [] f d = some [] :=
  rfl

/-- C7.  The search-term quoting rule of `SalesforceClient.search`: a query
already starting and ending with a double quote passes through verbatim;
otherwise a query containing a space is wrapped whole in double quotes;
otherwise it is used as a bare token — with the specification's three
examples. -/
theorem searchTermQuoting :
    (∀ q : String, pyStartsWith q "\"" = true → pyEndsWith q "\"" = true →
      searchTerm q = q) ∧
    (∀ q : String, ¬(pyStartsWith q "\"" = true ∧ pyEndsWith q "\"" = true) →
      pyContainsChar q ' ' = true → searchTerm q = "\"" ++ q ++ "\"") ∧
    (∀ q : String, ¬(pyStartsWith q "\"" = true ∧ pyEndsWith q "\"" = true) →
      pyContainsChar q ' ' = false → searchTerm q = q) ∧
    searchTerm "Axalta" = "Axalta" ∧
    searchTerm "Axalta Coating" = "\"Axalta Coating\"" ∧
    searchTerm "\"Axalta Coating\"" = "\"Axalta Coating\"" := by
  refine ⟨?_, ?_, ?_, by decide, by decide, by decide⟩
  · intro q h1 h2
    simp [searchTerm, h1, h2]
  · intro q h1 h2
    simp [searchTerm, h1, h2]
  · intro q h1 h2
    simp [searchTerm, h1, h2]

/-- C7 witness: the quoting rule applied to the spec's concrete inputs. -/
theorem searchTermQuotingWitness :
    searchTerm "Axalta Coating" = "\"" ++ "Axalta Coating" ++ "\"" ∧
    searchTerm "Axalta" = "Axalta" ∧
    searchTerm "\"Axalta Coating\"" = "\"Axalta Coating\"" :=
  ⟨searchTermQuoting.2.1 "Axalta Coating" (by decide) (by decide),
   searchTermQuoting.2.2.1 "Axalta" (by decide) (by decide),
   searchTermQuoting.1 "\"Axalta Coating\"" (by decide) (by decide)⟩

/-- C6.  Update coercion is typed by the field's current value: a boolean
field maps the fixed token set `true/1/yes/t/y` (lowercased) to `True` and
everything else — e.g. `"no"` — to `False`; an integer field parses
`"12"` to the integer 12; and when integer or float parsing fails the raw
string is stored unchanged (the coercion is a total function — the
`except ValueError` branch — so no exception escapes). -/
theorem updateCoercionTyped :
    (∀ b : Bool, coerceValue (Value.bool b) "no" = Value.bool false) ∧
    (∀ (b : Bool) (raw : String),
      coerceValue (Value.bool b) raw =
        Value.bool (boolTokens.contains (pyLower raw))) ∧
    (∀ n : Int, coerceValue (Value.int n) "12" = Value.int 12) ∧
    (∀ n : Int, coerceValue (Value.int n) "abc" = Value.str "abc") ∧
    (∀ (n : Int) (raw : String), pyParseIntSigned raw = none →
      coerceValue (Value.int n) raw = Value.str raw) ∧
    (∀ (lit raw : String), pyFloatParses raw = false →
      coerceValue (Value.float lit) raw = Value.str raw) := by
  refine ⟨fun b => rfl, fun b raw => rfl, fun n => rfl, fun n => rfl, ?_, ?_⟩
  · intro n raw h
    simp [coerceValue, h]
  · intro lit raw h
    simp [coerceValue, h]

/-- C6 witness: the parse-failure conjuncts at `"abc"`. -/
theorem updateCoercionTypedWitness :
    coerceValue (Value.int 0) "abc" = Value.str "abc" ∧
    coerceValue (Value.float "1.5") "abc" = Value.str "abc" :=
  ⟨updateCoercionTyped.2.2.2.2.1 0 "abc" (by decide),
   updateCoercionTyped.2.2.2.2.2 "1.5" "abc" (by decide)⟩

/-- C3 (code bug).  When the full-text request raises, `search` does run a
fallback SOQL without propagating the failure — but the `except` branch
interpolates the raw `fields` argument into its SELECT clause
(`f"SELECT {fields}"`), not the `soql_fields` string it computes at
lines 146-151, so with `fields=None` the query reads `SELECT None`.
The intended field set (used by the reachable zero-result fallback at
lines 129-135) is shown for contrast, and the whole-call evaluation shows
the fallback rows being returned with the SOSL failure swallowed. -/
theorem searchExceptBranchSelectBug :
    exceptBranchSoql "Account" "Name" "Axalta" 200 none =
      "\n                SELECT None\n                FROM Account\n                WHERE Name LIKE \x27%Axalta%\x27\n                ORDER BY Name\n                LIMIT 200\n            " ∧
    soqlFieldsFor "Account" "Name" none =
      "Id, Name, ParentId, Ultimate_Parent__c, ShippingStreet, ShippingCity, ShippingState, ShippingPostalCode" ∧
    exceptBranchSoql "Account" "Name" "Axalta" 200 none ≠
      fallbackSoql "Account" "Name" "Axalta" 200 none ∧
    clientSearch "Account" "Axalta" 200 none "Name"
      (fun _ => Except.error "full-text request failed")
      (fun _ => Except.ok ⟨[accRec]⟩) = Except.ok [accRec] := by
  refine ⟨rfl, rfl, ?_, rfl⟩
  intro h
  have h2 := congrArg (fun s : String => s.data.take 30) h
  revert h2
  decide

/-- C5, counterexample.  The claim commits the update only on the explicit
token "yes" and cancels on any other input; the confirmation gate of
`_handle_update` is `confirmation.strip().lower() in ['yes', 'y']`, so the
input `"y"` also commits: the write request is issued and the local record
snapshot changes. -/
theorem updateCommitsOnSingleY :
    (handleUpdate updSession "Phone 222" "y" (Except.ok true)).2 =
      some ("Phone", Value.str "222") ∧
    (handleUpdate updSession "Phone 222" "y" (Except.ok true)).1 ≠
      updSession := by
  constructor
  · decide
  · decide

/-- C5, amended.  No session state and no remote write happens unless the
stripped, lowercased confirmation input is `"yes"` OR `"y"` (so empty
input and anything else cancels with the session unchanged and no write
issued); when it is one of those two tokens the coerced write is issued,
the snapshot is updated in place exactly on a successful write, and a
failed write leaves the session unchanged. -/
theorem updateConfirmationGate :
    (∀ (s : Session) (args conf : String) (w : Except String Bool),
      ¬(pyLower (pyStrip conf) = "yes" ∨ pyLower (pyStrip conf) = "y") →
      handleUpdate s args conf w = (s, none)) ∧
    (∀ (s : Session) (record : Record)
        (args fieldName newValue actualField conf : String)
        (w : Except String Bool),
      s.currentRecord = some record →
      pySplitFirst args = [fieldName, newValue] →
      findKeyCI record fieldName = some actualField →
      (pyLower (pyStrip conf) = "yes" ∨ pyLower (pyStrip conf) = "y") →
      (handleUpdate s args conf w).2 =
        some (actualField, coerceValue (pyGet record actualField) newValue)) ∧
    (∀ (s : Session) (args conf msg : String),
      (handleUpdate s args conf (Except.error msg)).1 = s) ∧
    (∀ (s : Session) (record : Record)
        (args fieldName newValue actualField conf : String),
      s.currentRecord = some record →
      pySplitFirst args = [fieldName, newValue] →
      findKeyCI record fieldName = some actualField →
      (pyLower (pyStrip conf) = "yes" ∨ pyLower (pyStrip conf) = "y") →
      (handleUpdate s args conf (Except.ok true)).1 =
        { s with currentRecord := some (dictSet record actualField
            (coerceValue (pyGet record actualField) newValue)) }) := by
  refine ⟨?_, ?_, ?_, ?_⟩
  · intro s args conf w hconf
    simp only [handleUpdate, if_neg hconf]
    repeat' split
    all_goals rfl
  · intro s record args fieldName newValue actualField conf w
      hrec hsplit hkey hconf
    have hne : ¬ args = "" := by
      intro h
      rw [h] at hsplit
      simp [pySplitFirst] at hsplit
    simp only [handleUpdate, hrec, if_neg hne, hsplit, hkey, if_pos hconf]
    cases w with
    | ok b => cases b <;> rfl
    | error m => rfl
  · intro s args conf msg
    simp only [handleUpdate]
    repeat' split
    all_goals rfl
  · intro s record args fieldName newValue actualField conf
      hrec hsplit hkey hconf
    have hne : ¬ args = "" := by
      intro h
      rw [h] at hsplit
      simp [pySplitFirst] at hsplit
    simp only [handleUpdate, hrec, if_neg hne, hsplit, hkey, if_pos hconf]

/-- C5 witness: the gate instantiated on the Phone-update session, with
the confirming input `"yes"` committing and an unconfirmed run leaving
the pair `(session, no write)`. -/
theorem updateConfirmationGateWitness :
    handleUpdate updSession "Phone 222" "maybe" (Except.ok true) =
      (updSession, none) ∧
    (handleUpdate updSession "Phone 222" "yes" (Except.ok true)).2 =
      some ("Phone", coerceValue
        (pyGet [("Id", Value.str "001"), ("Phone", Value.str "111")] "Phone")
        "222") :=
  ⟨updateConfirmationGate.1 updSession "Phone 222" "maybe" (Except.ok true)
      (by decide),
   updateConfirmationGate.2.1 updSession
      [("Id", Value.str "001"), ("Phone", Value.str "111")]
      "Phone 222" "Phone" "222" "Phone" "yes" (Except.ok true)
      rfl (by decide) (by decide) (Or.inl (by decide))⟩

/-- C8.  For a non-empty active result list (search results or related
list), `select(n)` with `n` outside `[1, length]` leaves the entire
session — navigation stack included — unchanged, and the remote fetch is
never consulted (the result is the same for EVERY fetch function). -/
theorem selectOutOfRangeNoOp :
    (∀ (s : Session) (n : Int) (fetch : String → Except String Record),
      s.currentRecords ≠ [] →
      (n < 1 ∨ (s.currentRecords.length : Int) < n) →
      handleSelect s (some n) fetch = s) ∧
    (∀ (s : Session) (n : Int) (fetch : String → Except String Record),
      s.relatedRecords ≠ [] →
      (n < 1 ∨ (s.relatedRecords.length : Int) < n) →
      handleSelectRelated s (some n) fetch = s) := by
  constructor
  · intro s n fetch hne hout
    simp only [handleSelect]
    by_cases h0 : (0 : Int) ≤ n - 1
    · rw [if_pos h0]
      have hlen : s.currentRecords.length ≤ (n - 1).toNat := by omega
      rw [List.get?_eq_none.mpr hlen]
    · rw [if_neg h0]
  · intro s n fetch hne hout
    simp only [handleSelectRelated]
    by_cases h0 : (0 : Int) ≤ n - 1
    · rw [if_pos h0]
      have hlen : s.relatedRecords.length ≤ (n - 1).toNat := by omega
      rw [List.get?_eq_none.mpr hlen]
    · rw [if_neg h0]

/-- C8 witness: selecting index 2 and index 0 from the one-element search
list and index 5 from the one-element related list are no-ops. -/
theorem selectOutOfRangeNoOpWitness :
    handleSelect selSession (some 2) (fun _ => Except.ok accRec) =
      selSession ∧
    handleSelect selSession (some 0) (fun _ => Except.ok accRec) =
      selSession ∧
    handleSelectRelated relSession (some 5) (fun _ => Except.ok conRec) =
      relSession :=
  ⟨selectOutOfRangeNoOp.1 selSession 2 _ (by decide) (Or.inr (by decide)),
   selectOutOfRangeNoOp.1 selSession 0 _ (by decide) (Or.inl (by decide)),
   selectOutOfRangeNoOp.2 relSession 5 _ (by decide) (Or.inr (by decide))⟩

/-- C1, counterexample.  The claim says a failing collaborator call leaves
the session exactly as it was before the command; but `_handle_get`
assigns `self.current_object = object_type` before the fetch and its
`except` branch does not restore it, so a failed `get Contact <id>` from
the start state leaves `currentObject = some "Contact"`. -/
theorem failedGetMutatesState :
    handleGet emptySession "Contact" (Except.error "network failure") ≠
      emptySession ∧
    (handleGet emptySession "Contact"
        (Except.error "network failure")).currentObject = some "Contact" ∧
    emptySession.currentObject = none := by
  refine ⟨by decide, rfl, rfl⟩

/-- C1, amended.  On a collaborator failure nothing is pushed onto or
popped from the navigation stack by `related`, `cd`, `parent`,
`ultimateparent`, `children` and `select`-from-related, which leave the
whole session unchanged; but `search` failure resets the current object
to none and the result list to empty (instead of restoring them) while
leaving record, related list, stack and breadcrumb untouched; `get`
failure leaves the current object set to the requested type with
everything else untouched; and `select`-from-search pushes its frame
BEFORE fetching, so an in-range select whose fetch fails leaves exactly
that frame on the stack (out-of-range selects never fetch — claim C8). -/
theorem collaboratorFailureEffects :
    (∀ (s : Session) (objectType msg : String),
      handleSearch s objectType (Except.error msg) =
        { s with currentObject := none, currentRecords := [] }) ∧
    (∀ (s : Session) (objectType msg : String),
      handleGet s objectType (Except.error msg) =
        { s with currentObject := some objectType }) ∧
    (∀ (s : Session) (name msg : String),
      handleRelated s name (fun _ => Except.error msg) = s) ∧
    (∀ (s : Session) (name msg : String),
      handleCd s name (fun _ => Except.error msg) = s) ∧
    (∀ (s : Session) (msg : String),
      handleParent s (Except.error msg) = s) ∧
    (∀ (s : Session) (msg : String),
      handleUltimateParent s (Except.error msg) = s) ∧
    (∀ (s : Session) (msg : String),
      handleChildren s (Except.error msg) = s) ∧
    (∀ (s : Session) (nOpt : Option Int) (msg : String),
      handleSelectRelated s nOpt (fun _ => Except.error msg) = s) ∧
    (∀ (s : Session) (n : Int) (msg : String),
      1 ≤ n → (n - 1).toNat < s.currentRecords.length →
      handleSelect s (some n) (fun _ => Except.error msg) =
        { s with navigationStack :=
            (Frame.search s.currentObject s.currentRecords
              (some s.navigationPath)) :: s.navigationStack }) := by
  refine ⟨fun s o m => rfl, fun s o m => rfl, ?_, ?_, ?_, ?_, ?_, ?_, ?_⟩
  · intro s name msg
    simp only [handleRelated]
    repeat' split
    all_goals rfl
  · intro s name msg
    simp only [handleCd]
    repeat' split
    all_goals first
      | rfl
      | simp_all
  · intro s msg
    simp only [handleParent]
    repeat' split
    all_goals rfl
  · intro s msg
    simp only [handleUltimateParent]
    repeat' split
    all_goals rfl
  · intro s msg
    simp only [handleChildren]
    repeat' split
    all_goals rfl
  · intro s nOpt msg
    simp only [handleSelectRelated]
    repeat' split
    all_goals rfl
  · intro s n msg hn hlen
    obtain ⟨obj, recs, rec, rel, relTy, stack, path⟩ := s
    dsimp only at hlen ⊢
    simp only [handleSelect, if_pos (show (0 : Int) ≤ n - 1 by omega),
      List.get?_eq_get hlen]

/-- C1 witness: the failure shapes at the concrete sessions used above —
in particular, an in-range `select 1` whose fetch fails leaves exactly the
pushed search frame on the stack. -/
theorem collaboratorFailureEffectsWitness :
    handleRelated pSession "Contacts" (fun _ => Except.error "down") =
      pSession ∧
    handleParent pSession (Except.error "down") = pSession ∧
    handleSelect selSession (some 1) (fun _ => Except.error "down") =
      { selSession with navigationStack :=
          (Frame.search selSession.currentObject selSession.currentRecords
            (some selSession.navigationPath)) ::
            selSession.navigationStack } :=
  ⟨collaboratorFailureEffects.2.2.1 pSession "Contacts" "down",
   collaboratorFailureEffects.2.2.2.2.1 pSession "down",
   collaboratorFailureEffects.2.2.2.2.2.2.2.2 selSession 1 "down"
     (by decide) (by decide)⟩

/-- C9.  When the declared child-relationship metadata contains an entry
whose name exactly matches the request, `get_related_records` returns
that entry's child object type and joining field; the result does not
depend on the heuristic chain at all (any two heuristics give the same
answer), the plural-name table is bypassed, and when nothing matches and
the heuristic chain also fails the call raises instead of guessing.  The
final conjunct wires in the source's real heuristic
(`_get_relationship_field`). -/
theorem declaredRelationshipFirst :
    (∀ (objectType : String) (childRels : List ChildRel)
        (relationshipName : String) (r : ChildRel)
        (heuristicA heuristicB : String → Option String),
      childRels.find? (fun rel => rel.name = relationshipName) = some r →
      r.object ≠ "" → r.field ≠ "" →
      resolveRelated objectType childRels relationshipName heuristicA =
          Except.ok (r.object, r.field) ∧
        resolveRelated objectType childRels relationshipName heuristicA =
          resolveRelated objectType childRels relationshipName heuristicB) ∧
    (∀ (objectType : String) (childRels : List ChildRel)
        (relationshipName : String) (heuristic : String → Option String),
      childRels.find? (fun rel => rel.name = relationshipName) = none →
      heuristic (objectMapping relationshipName) = none →
      resolveRelated objectType childRels relationshipName heuristic =
        Except.error ("Could not determine relationship field for " ++
          relationshipName ++ " to " ++ objectType)) ∧
    (∀ (objectType : String) (childRels : List ChildRel)
        (relationshipName : String)
        (describe : String → Except String (List FieldMeta)),
      childRels.find? (fun rel => rel.name = relationshipName) = none →
      getRelationshipField objectType (objectMapping relationshipName)
          describe = none →
      getRelatedRecordsResolve objectType childRels relationshipName
          describe =
        Except.error ("Could not determine relationship field for " ++
          relationshipName ++ " to " ++ objectType)) := by
  refine ⟨?_, ?_, ?_⟩
  · intro objectType childRels relationshipName r hA hB hfind hobj hfld
    constructor
    · simp only [resolveRelated, hfind, if_neg hobj, if_neg hfld]
    · simp only [resolveRelated, hfind, if_neg hobj, if_neg hfld]
  · intro objectType childRels relationshipName heuristic hfind hheur
    simp only [resolveRelated, hfind, hheur]
  · intro objectType childRels relationshipName describe hfind hheur
    simp only [getRelatedRecordsResolve, resolveRelated, hfind, hheur]

/-- C9 witness: a declared "Contacts" relationship on Account whose
declared joining field `Custom_Link__c` differs from the convention
`AccountId`, resolved identically under two different heuristics; and the
error raised when nothing matches and the heuristic fails. -/
theorem declaredRelationshipFirstWitness :
    (resolveRelated "Account" [declaredContactsRel] "Contacts"
        (fun _ => some "AccountId") =
      Except.ok ("Contact", "Custom_Link__c") ∧
      resolveRelated "Account" [declaredContactsRel] "Contacts"
          (fun _ => some "AccountId") =
        resolveRelated "Account" [declaredContactsRel] "Contacts"
          (fun _ => none)) ∧
    resolveRelated "Account" [] "Contacts" (fun _ => none) =
      Except.error
        "Could not determine relationship field for Contacts to Account" :=
  ⟨declaredRelationshipFirst.1 "Account" [declaredContactsRel] "Contacts"
      declaredContactsRel (fun _ => some "AccountId") (fun _ => none)
      (by decide) (by decide) (by decide),
   declaredRelationshipFirst.2.1 "Account" [] "Contacts" (fun _ => none)
      rfl rfl⟩

/-- C4, counterexample.  From the reachable related-list state
`search; select 1; cd Contacts` (breadcrumb `["Account:Acme", "Contacts"]`,
related list `[conRec]`), one forward transition `related Opportunities`
followed by `back` does NOT restore the pre-transition state: the frame
pushed by `_handle_related` has no `navigation_path` key and the
`record`-frame restore clears the related list, so `back` returns with an
empty breadcrumb and an empty related list. -/
theorem backAfterRelatedForgetsContext :
    goBack (handleRelated sAfterCd "Opportunities"
        (fun _ => Except.ok [oppRec])) ≠ sAfterCd ∧
    (goBack (handleRelated sAfterCd "Opportunities"
        (fun _ => Except.ok [oppRec]))).navigationPath = [] ∧
    sAfterCd.navigationPath = ["Account:Acme", "Contacts"] ∧
    (goBack (handleRelated sAfterCd "Opportunities"
        (fun _ => Except.ok [oppRec]))).relatedRecords = [] ∧
    sAfterCd.relatedRecords = [conRec] := by
  refine ⟨by decide, by decide, by decide, by decide, by decide⟩

/-- C4, amended.  `back` after one successful forward transition restores
the pre-transition object type, record, list contents and breadcrumb
verbatim PROVIDED the state components the pushed frame does not capture
were empty beforehand: select-from-related round-trips with no side
condition; select-from-search requires no current record and an empty
related list; `cd` additionally requires an empty result list;
`related`, `parent`, `ultimateparent` and `children` (whose frames omit
the breadcrumb snapshot) additionally require an empty breadcrumb.
From states violating these conditions — e.g. a related-list view —
`back` clears the uncaptured components instead of restoring them. -/
theorem backRoundTrip :
    (∀ (s : Session) (n : Int) (r : Record)
        (fetch : String → Except String Record),
      s.currentRecord = none → s.relatedRecords = [] → s.relatedType = none →
      1 ≤ n → (n - 1).toNat < s.currentRecords.length →
      (∀ id, fetch id = Except.ok r) →
      goBack (handleSelect s (some n) fetch) = s) ∧
    (∀ (s : Session) (n : Int) (r : Record)
        (fetch : String → Except String Record),
      1 ≤ n → (n - 1).toNat < s.relatedRecords.length →
      (∀ id, fetch id = Except.ok r) →
      goBack (handleSelectRelated s (some n) fetch) = s) ∧
    (∀ (s : Session) (name : String) (recs2 : List Record) (record : Record)
        (fetch : String → Except String (List Record)),
      s.currentRecord = some record → s.relatedRecords = [] →
      s.relatedType = none → s.currentRecords = [] →
      (∀ x, fetch x = Except.ok recs2) →
      goBack (handleCd s name fetch) = s) ∧
    (∀ (s : Session) (name : String) (recs2 : List Record) (record : Record)
        (fetch : String → Except String (List Record)),
      s.currentRecord = some record → s.relatedRecords = [] →
      s.relatedType = none → s.currentRecords = [] →
      s.navigationPath = [] → name ≠ "" →
      (∀ x, fetch x = Except.ok recs2) →
      goBack (handleRelated s name fetch) = s) ∧
    (∀ (s : Session) (record r : Record),
      s.currentRecord = some record → s.currentObject = some "Account" →
      pyTruthy (pyGet record "ParentId") = true →
      s.relatedRecords = [] → s.relatedType = none → s.currentRecords = [] →
      s.navigationPath = [] →
      goBack (handleParent s (Except.ok r)) = s) ∧
    (∀ (s : Session) (record r : Record),
      s.currentRecord = some record → s.currentObject = some "Account" →
      pyTruthy (pyGet record "Ultimate_Parent__c") = true →
      s.relatedRecords = [] → s.relatedType = none → s.currentRecords = [] →
      s.navigationPath = [] →
      goBack (handleUltimateParent s (Except.ok r)) = s) ∧
    (∀ (s : Session) (record : Record) (total : Int)
        (children : List Record),
      s.currentRecord = some record → s.currentObject = some "Account" →
      pyTruthy (pyGet record "Id") = true → total ≠ 0 →
      s.relatedRecords = [] → s.relatedType = none → s.currentRecords = [] →
      s.navigationPath = [] →
      goBack (handleChildren s (Except.ok (total, children))) = s) := by
  refine ⟨?_, ?_, ?_, ?_, ?_, ?_, ?_⟩
  · intro s n r fetch h1 h2 h3 hn hlen hf
    obtain ⟨obj, recs, rec, rel, relTy, stack, path⟩ := s
    dsimp only at h1 h2 h3 hlen
    subst h1; subst h2; subst h3
    simp only [handleSelect, if_pos (show (0 : Int) ≤ n - 1 by omega),
      List.get?_eq_get hlen, hf, goBack, Option.getD]
  · intro s n r fetch hn hlen hf
    obtain ⟨obj, recs, rec, rel, relTy, stack, path⟩ := s
    dsimp only at hlen
    simp only [handleSelectRelated, if_pos (show (0 : Int) ≤ n - 1 by omega),
      List.get?_eq_get hlen, hf, goBack, Option.getD]
  · intro s name recs2 record fetch h1 h2 h3 h4 hf
    obtain ⟨obj, recs, rec, rel, relTy, stack, path⟩ := s
    dsimp only at h1 h2 h3 h4
    subst h1; subst h2; subst h3; subst h4
    by_cases hend : pyEndsWith name "__c" = true
    · simp only [handleCd, hend, if_true, hf, goBack, Option.getD]
    · simp only [handleCd, Bool.not_eq_true] at hend ⊢
      simp only [hend, Bool.false_eq_true, if_false, hf, goBack, Option.getD]
  · intro s name recs2 record fetch h1 h2 h3 h4 h5 hname hf
    obtain ⟨obj, recs, rec, rel, relTy, stack, path⟩ := s
    dsimp only at h1 h2 h3 h4 h5
    subst h1; subst h2; subst h3; subst h4; subst h5
    simp only [handleRelated, if_neg hname, hf, goBack, Option.getD]
  · intro s record r h1 h2 h3 h4 h5 h6 h7
    obtain ⟨obj, recs, rec, rel, relTy, stack, path⟩ := s
    dsimp only at h1 h2 h3 h4 h5 h6 h7
    subst h1; subst h2; subst h4; subst h5; subst h6; subst h7
    simp [handleParent, h3, goBack]
  · intro s record r h1 h2 h3 h4 h5 h6 h7
    obtain ⟨obj, recs, rec, rel, relTy, stack, path⟩ := s
    dsimp only at h1 h2 h3 h4 h5 h6 h7
    subst h1; subst h2; subst h4; subst h5; subst h6; subst h7
    simp [handleUltimateParent, h3, goBack]
  · intro s record total children h1 h2 h3 h4 h5 h6 h7 h8
    obtain ⟨obj, recs, rec, rel, relTy, stack, path⟩ := s
    dsimp only at h1 h2 h5 h6 h7 h8
    subst h1; subst h2; subst h5; subst h6; subst h7; subst h8
    simp [handleChildren, h3, h4, goBack]

/-- C4 witness: the seven round trips at concrete sessions — the
one-element search list, the related-list session, and the plain record
session with parent, ultimate-parent and child links. -/
theorem backRoundTripWitness :
    goBack (handleSelect selSession (some 1) (fun _ => Except.ok accRec)) =
      selSession ∧
    goBack (handleSelectRelated relSession (some 1)
        (fun _ => Except.ok conRec)) = relSession ∧
    goBack (handleCd pSession "Contacts" (fun _ => Except.ok [conRec])) =
      pSession ∧
    goBack (handleRelated pSession "Contacts"
        (fun _ => Except.ok [conRec])) = pSession ∧
    goBack (handleParent pSession (Except.ok accParent)) = pSession ∧
    goBack (handleUltimateParent pSession (Except.ok accParent)) =
      pSession ∧
    goBack (handleChildren pSession (Except.ok (1, [accParent]))) =
      pSession :=
  ⟨backRoundTrip.1 selSession 1 accRec _ rfl rfl rfl (by decide) (by decide)
      (fun _ => rfl),
   backRoundTrip.2.1 relSession 1 conRec _ (by decide) (by decide)
      (fun _ => rfl),
   backRoundTrip.2.2.1 pSession "Contacts" [conRec] accChild _ rfl rfl rfl
      rfl (fun _ => rfl),
   backRoundTrip.2.2.2.1 pSession "Contacts" [conRec] accChild _ rfl rfl
      rfl rfl rfl (by decide) (fun _ => rfl),
   backRoundTrip.2.2.2.2.1 pSession accChild accParent rfl rfl (by decide)
      rfl rfl rfl rfl,
   backRoundTrip.2.2.2.2.2.1 pSession accChild accParent rfl rfl
      (by decide) rfl rfl rfl rfl,
   backRoundTrip.2.2.2.2.2.2 pSession accChild 1 [accParent] rfl rfl
      (by decide) (by decide) rfl rfl rfl rfl⟩

end SfCli
